import Mathlib

/-!
Shallow embedding of the magic-link authentication core of the Lbinag
storefront: the POST /auth/login handler (token issuance), the
GET /auth/verify handler (token consumption and session establishment),
the MagicLink and User mongoose schemas, and the getChatUserId session
helper.  Time is modelled as milliseconds (Nat), the document database as
lists of records, and the session as an explicit record.
-/

/-- ASCII lowercasing of a character, as JS String.prototype.toLowerCase
acts on the ASCII range used by email addresses. -/
def jsToLowerChar (c : Char) : Char :=
  if 'A' ≤ c ∧ c ≤ 'Z' then Char.ofNat (c.toNat + 32) else c

/-- JS String.prototype.toLowerCase restricted to the ASCII range. -/
def jsToLower (s : String) : String :=
  ⟨s.data.map jsToLowerChar⟩

/-- Whitespace recognised by JS String.prototype.trim (the common cases). -/
def jsIsSpace (c : Char) : Bool :=
  c = ' ' ∨ c = '\t' ∨ c = '\n' ∨ c = '\r'

/-- JS String.prototype.trim: strip leading and trailing whitespace. -/
def jsTrim (s : String) : String :=
  ⟨((s.data.dropWhile jsIsSpace).reverse.dropWhile jsIsSpace).reverse⟩

/-- JS String.prototype.includes for a single character. -/
def jsIncludes (s : String) (c : Char) : Bool :=
  s.data.contains c

/-- `email.toLowerCase().trim()` from the POST /auth/login handler; the
mongoose schema options `lowercase: true, trim: true` on both the
MagicLink and User email fields perform the same normalization. -/
def normalizeEmail (email : String) : String :=
  jsTrim (jsToLower email)

/-- A MagicLink document (src MagicLink schema: email, token, expiresAt,
used with default false, createdAt).  Times are in milliseconds. -/
structure MagicLinkRec where
  email : String
  token : String
  expiresAt : Nat
  used : Bool
  createdAt : Nat
deriving Repr, DecidableEq

/-- A User document (src User schema: unique normalized email, createdAt).
`id` stands for the stringified mongo `_id`. -/
structure UserRec where
  id : String
  email : String
  createdAt : Nat
deriving Repr, DecidableEq

/-- The backing document store: the MagicLink and User collections, in
insertion order. -/
structure Store where
  magicLinks : List MagicLinkRec
  users : List UserRec
deriving Repr, DecidableEq

/-- The express session fields touched by the auth code: userId and
userEmail (set on login), guestChatId (set by getChatUserId), returnTo
(set by requireAuth, consumed on verify). -/
structure SessionState where
  userId : Option String
  userEmail : Option String
  guestChatId : Option String
  returnTo : Option String
deriving Repr, DecidableEq

/-- Outcome of the POST /auth/login handler, identified by the redirect
it issues. -/
inductive LoginOutcome where
  | invalidEmail
  | mailFailed
  | checkEmail (email : String)
deriving Repr, DecidableEq

/-- POST /auth/login: validate the raw email (`!email ||
!email.includes('@')`), normalize it, create a MagicLink with
`expiresAt = Date.now() + 15*60*1000` and schema-default `used = false`,
then call the mailer; a mailer non-success is surfaced as a failure
redirect.  `mailOk` is the mailer result, `tok` the generated uuid. -/
def loginHandler (mailOk : Bool) (now : Nat) (tok : String) (email : String)
    (st : Store) : LoginOutcome × Store :=
  if email = "" ∨ jsIncludes email '@' = false then
    (.invalidEmail, st)
  else
    let ne := normalizeEmail email
    let ml : MagicLinkRec :=
      { email := normalizeEmail ne
        token := tok
        expiresAt := now + 15 * 60 * 1000
        used := false
        createdAt := now }
    let st1 : Store := { st with magicLinks := st.magicLinks ++ [ml] }
    if mailOk then (.checkEmail ne, st1) else (.mailFailed, st1)

/-- Outcome of the GET /auth/verify handler, identified by the redirect
it issues. -/
inductive VerifyOutcome where
  | missingToken
  | invalidToken
  | alreadyUsed
  | expired
  | storeError
  | success (redirect : String)
deriving Repr, DecidableEq

/-- The user-visible error message attached to each failure redirect in
the source (success carries a redirect target instead). -/
def verifyMessage : VerifyOutcome → String
  | .missingToken => "Invalid or missing token"
  | .invalidToken => "Invalid or expired link"
  | .alreadyUsed => "This link has already been used"
  | .expired => "This link has expired"
  | .storeError => "An error occurred. Please try again."
  | .success _ => ""

/-- `magicLink.used = true; await magicLink.save()`: update in place the
one document that findOne returned (the first match). -/
def markUsedFirst : List MagicLinkRec → String → List MagicLinkRec
  | [], _ => []
  | ml :: rest, t =>
    if ml.token = t then { ml with used := true } :: rest
    else ml :: markUsedFirst rest t

/-- GET /auth/verify: missing-token guard, findOne by token, used check,
expiry check (`new Date() > magicLink.expiresAt`), mark used and save,
find-or-create the User by the token's email, set session userId and
userEmail, and redirect to `session.returnTo || '/'` after deleting
returnTo.  `usersOk = false` models a store failure thrown by the User
lookup/creation (caught by the handler's try/catch after the used-flag
save has already been awaited).  `freshUserId` is the mongo id a newly
created user would get. -/
def verifyHandler (usersOk : Bool) (now : Nat) (freshUserId : String)
    (tok : Option String) (st : Store) (sess : SessionState) :
    VerifyOutcome × Store × SessionState :=
  match tok with
  | none => (.missingToken, st, sess)
  | some t =>
    if t = "" then (.missingToken, st, sess)
    else
      match st.magicLinks.find? (fun ml => ml.token == t) with
      | none => (.invalidToken, st, sess)
      | some ml =>
        if ml.used then (.alreadyUsed, st, sess)
        else if now > ml.expiresAt then (.expired, st, sess)
        else
          let st1 : Store := { st with magicLinks := markUsedFirst st.magicLinks t }
          if usersOk = false then (.storeError, st1, sess)
          else
            let found := st1.users.find? (fun u => u.email == ml.email)
            let user : UserRec :=
              match found with
              | some u => u
              | none => { id := freshUserId, email := normalizeEmail ml.email, createdAt := now }
            let st2 : Store :=
              match found with
              | some _ => st1
              | none => { st1 with users := st1.users ++ [user] }
            let redirect := sess.returnTo.getD "/"
            (.success redirect, st2,
              { sess with
                  userId := some user.id
                  userEmail := some user.email
                  returnTo := none })

/-- getChatUserId from the auth middleware: return session.userId when
authenticated; otherwise mint and persist
`'guest_' + Date.now() + '_' + Math.random().toString(36).substr(2, 9)`
on first use and reuse it afterwards.  `nowStr` and `rand` are the
stringified environment inputs. -/
def getChatUserId (nowStr : String) (rand : String) (sess : SessionState) :
    String × SessionState :=
  match sess.userId with
  | some uid => (uid, sess)
  | none =>
    match sess.guestChatId with
    | some g => (g, sess)
    | none =>
      let g := "guest_" ++ nowStr ++ "_" ++ rand
      (g, { sess with guestChatId := some g })

/-- The empty session a fresh browser starts with. -/
def emptySession : SessionState :=
  { userId := none, userEmail := none, guestChatId := none, returnTo := none }

/-- Phase of one in-flight GET /auth/verify handler, split at its store
round trips: `start` (about to findOne and run the used/expiry checks on
the returned document), `ready` (checks passed, about to save
`used = true`), `finished`. -/
inductive VPhase where
  | start
  | ready
  | finished
deriving Repr, DecidableEq

/-- Local state of one in-flight verify handler. -/
structure VHandlerState where
  phase : VPhase
  outcome : Option VerifyOutcome
deriving Repr, DecidableEq

/-- One atomic store round trip of a verify handler for token `t`:
in `start`, findOne plus the in-memory used/expiry checks (failing
handlers finish here); in `ready`, the unconditional
`magicLink.save()` of the used flag followed by success.  The success
payload is fixed to the default redirect, irrelevant to counting. -/
def vstep (now : Nat) (t : String) (st : Store) (h : VHandlerState) :
    Store × VHandlerState :=
  match h.phase with
  | .start =>
    match st.magicLinks.find? (fun ml => ml.token == t) with
    | none => (st, { phase := .finished, outcome := some .invalidToken })
    | some ml =>
      if ml.used then (st, { phase := .finished, outcome := some .alreadyUsed })
      else if now > ml.expiresAt then
        (st, { phase := .finished, outcome := some .expired })
      else (st, { phase := .ready, outcome := none })
  | .ready =>
    ({ st with magicLinks := markUsedFirst st.magicLinks t },
      { phase := .finished, outcome := some (.success "/") })
  | .finished => (st, h)

/-- Run an interleaving of two concurrent verify handlers for the same
token: `false` schedules a step of handler 0, `true` one of handler 1.
Handlers share the store and nothing else, as request-per-call handlers
over one database. -/
def runSched (now : Nat) (t : String) :
    List Bool → Store × VHandlerState × VHandlerState →
    Store × VHandlerState × VHandlerState
  | [], s => s
  | b :: rest, (st, h0, h1) =>
    if b then
      let r := vstep now t st h1
      runSched now t rest (r.1, h0, r.2)
    else
      let r := vstep now t st h0
      runSched now t rest (r.1, r.2, h1)

/-- `n` sequential (serialized, non-overlapping) GET /auth/verify calls
for the same token, each on a fresh session, collecting the outcomes. -/
def seqVerify (now : Nat) (t : String) : Nat → Store → List VerifyOutcome × Store
  | 0, st => ([], st)
  | n + 1, st =>
    let r := verifyHandler true now "u" (some t) st emptySession
    let rest := seqVerify now t n r.2.1
    (r.1 :: rest.1, rest.2)

/-- find? is left-biased across an append. -/
theorem find?_append_left {α : Type} (p : α → Bool) (l l₂ : List α) (x : α)
    (h : l.find? p = some x) : (l ++ l₂).find? p = some x := by
  induction l with
  | nil => simp [List.find?] at h
  | cons a as ih =>
    rw [List.cons_append]
    by_cases hp : p a
    · rw [List.find?_cons_of_pos _ hp] at h ⊢; exact h
    · rw [List.find?_cons_of_neg _ hp] at h ⊢; exact ih h

/-- find? over an append when the left part has no match. -/
theorem find?_append_none {α : Type} (p : α → Bool) (l l₂ : List α)
    (h : l.find? p = none) : (l ++ l₂).find? p = l₂.find? p := by
  induction l with
  | nil => simp
  | cons a as ih =>
    rw [List.cons_append]
    by_cases hp : p a
    · rw [List.find?_cons_of_pos _ hp] at h; exact absurd h (by simp)
    · rw [List.find?_cons_of_neg _ hp] at h ⊢; exact ih h

/-- After marking the found document used, a findOne for the same token
returns that document with `used = true`. -/
theorem markUsedFirst_find? (links : List MagicLinkRec) (t : String)
    (ml : MagicLinkRec) (h : links.find? (fun x => x.token == t) = some ml) :
    (markUsedFirst links t).find? (fun x => x.token == t) =
      some { ml with used := true } := by
  induction links with
  | nil => simp [List.find?] at h
  | cons a as ih =>
    by_cases ha : a.token = t
    · rw [List.find?_cons_of_pos _ (by simp [ha])] at h
      cases h
      unfold markUsedFirst
      rw [if_pos ha]
      exact List.find?_cons_of_pos _ (by simp [ha])
    · rw [List.find?_cons_of_neg _ (by simp [ha])] at h
      unfold markUsedFirst
      rw [if_neg ha, List.find?_cons_of_neg _ (by simp [ha])]
      exact ih h

/-- Marking the found document used only touches that document: every
other document in the collection keeps its findOne result. -/
theorem markUsedFirst_other (links : List MagicLinkRec) (t t₂ : String)
    (hne : t₂ ≠ t) :
    (markUsedFirst links t).find? (fun x => x.token == t₂) =
      links.find? (fun x => x.token == t₂) := by
  induction links with
  | nil => simp [markUsedFirst]
  | cons a as ih =>
    unfold markUsedFirst
    by_cases ha : a.token = t
    · have h2 : ¬ a.token = t₂ := fun hc => hne (hc ▸ ha)
      rw [if_pos ha, List.find?_cons_of_neg _ (by simp [ha]; exact fun hc => hne hc.symm),
        List.find?_cons_of_neg _ (by simp [h2])]
    · rw [if_neg ha]
      by_cases hb : a.token = t₂
      · rw [List.find?_cons_of_pos _ (by simp [hb]), List.find?_cons_of_pos _ (by simp [hb])]
      · rw [List.find?_cons_of_neg _ (by simp [hb]), List.find?_cons_of_neg _ (by simp [hb])]
        exact ih

/-- An absent or empty token short-circuits before any lookup. -/
theorem verify_missing (ok : Bool) (now : Nat) (fid : String) (st : Store)
    (sess : SessionState) :
    verifyHandler ok now fid (some "") st sess = (.missingToken, st, sess) := by
  simp [verifyHandler]

/-- findOne miss: the handler fails with the invalid-link redirect and
touches nothing. -/
theorem verify_notfound (ok : Bool) (now : Nat) (fid t : String) (st : Store)
    (sess : SessionState) (hT : t ≠ "")
    (hfind : st.magicLinks.find? (fun x => x.token == t) = none) :
    verifyHandler ok now fid (some t) st sess = (.invalidToken, st, sess) := by
  simp [verifyHandler, hT, hfind]

/-- A used document fails with the already-used redirect and touches
nothing, regardless of the clock. -/
theorem verify_used (ok : Bool) (now : Nat) (fid t : String) (st : Store)
    (sess : SessionState) (ml : MagicLinkRec) (hT : t ≠ "")
    (hfind : st.magicLinks.find? (fun x => x.token == t) = some ml)
    (hused : ml.used = true) :
    verifyHandler ok now fid (some t) st sess = (.alreadyUsed, st, sess) := by
  simp [verifyHandler, hT, hfind, hused]

/-- An unused document past its expiry fails with the expired redirect
and touches nothing. -/
theorem verify_expired (ok : Bool) (now : Nat) (fid t : String) (st : Store)
    (sess : SessionState) (ml : MagicLinkRec) (hT : t ≠ "")
    (hfind : st.magicLinks.find? (fun x => x.token == t) = some ml)
    (hused : ml.used = false) (hexp : now > ml.expiresAt) :
    verifyHandler ok now fid (some t) st sess = (.expired, st, sess) := by
  simp [verifyHandler, hT, hfind, hused, hexp]

/-- Valid token, account already present: mark used, reuse the account,
establish the session, consume returnTo. -/
theorem verify_valid_user_found (now : Nat) (fid t : String) (st : Store)
    (sess : SessionState) (ml : MagicLinkRec) (u : UserRec) (hT : t ≠ "")
    (hfind : st.magicLinks.find? (fun x => x.token == t) = some ml)
    (hused : ml.used = false) (hexp : ¬ now > ml.expiresAt)
    (hu : st.users.find? (fun x => x.email == ml.email) = some u) :
    verifyHandler true now fid (some t) st sess =
      (.success (sess.returnTo.getD "/"),
        { magicLinks := markUsedFirst st.magicLinks t, users := st.users },
        { sess with
            userId := some u.id
            userEmail := some u.email
            returnTo := none }) := by
  simp [verifyHandler, hT, hfind, hused, hexp, hu]

/-- Valid token, unseen email: mark used, create the account, establish
the session, consume returnTo. -/
theorem verify_valid_user_absent (now : Nat) (fid t : String) (st : Store)
    (sess : SessionState) (ml : MagicLinkRec) (hT : t ≠ "")
    (hfind : st.magicLinks.find? (fun x => x.token == t) = some ml)
    (hused : ml.used = false) (hexp : ¬ now > ml.expiresAt)
    (hu : st.users.find? (fun x => x.email == ml.email) = none) :
    verifyHandler true now fid (some t) st sess =
      (.success (sess.returnTo.getD "/"),
        { magicLinks := markUsedFirst st.magicLinks t,
          users := st.users ++
            [{ id := fid, email := normalizeEmail ml.email, createdAt := now }] },
        { sess with
            userId := some fid
            userEmail := some (normalizeEmail ml.email)
            returnTo := none }) := by
  simp [verifyHandler, hT, hfind, hused, hexp, hu]

/-- Valid token but the User collection fails after the used flag was
saved: the error redirect is issued, the session is untouched, and the
consumed flag stays persisted. -/
theorem verify_usersFail (now : Nat) (fid t : String) (st : Store)
    (sess : SessionState) (ml : MagicLinkRec) (hT : t ≠ "")
    (hfind : st.magicLinks.find? (fun x => x.token == t) = some ml)
    (hused : ml.used = false) (hexp : ¬ now > ml.expiresAt) :
    verifyHandler false now fid (some t) st sess =
      (.storeError,
        { magicLinks := markUsedFirst st.magicLinks t, users := st.users },
        sess) := by
  simp [verifyHandler, hT, hfind, hused, hexp]

/-- The MagicLink document a valid POST /auth/login inserts. -/
def mintedLink (now : Nat) (tok email : String) : MagicLinkRec :=
  { email := normalizeEmail (normalizeEmail email)
    token := tok
    expiresAt := now + 15 * 60 * 1000
    used := false
    createdAt := now }

/-- A valid login request appends exactly its minted document to the
MagicLink collection, whatever the mailer does. -/
theorem loginHandler_store (mailOk : Bool) (now : Nat) (tok email : String)
    (st : Store) (hv1 : email ≠ "") (hv2 : jsIncludes email '@' = true) :
    (loginHandler mailOk now tok email st).2 =
      { st with magicLinks := st.magicLinks ++ [mintedLink now tok email] } := by
  unfold loginHandler mintedLink
  rw [if_neg (by simp [hv1, hv2])]
  cases mailOk <;> rfl

/-- findOne misses a collection none of whose documents carry the token. -/
theorem find?_token_none (links : List MagicLinkRec) (tok : String)
    (h : ∀ ml ∈ links, ml.token ≠ tok) :
    links.find? (fun x => x.token == tok) = none := by
  induction links with
  | nil => rfl
  | cons a as ih =>
    rw [List.find?_cons_of_neg _ (by simp; exact h a (List.mem_cons_self a as))]
    exact ih fun ml hm => h ml (List.mem_cons_of_mem a hm)

/-- Appending a document with a token fresh for the collection makes it
the findOne result for that token. -/
theorem find?_fresh_append (links : List MagicLinkRec) (ml : MagicLinkRec)
    (h : ∀ x ∈ links, x.token ≠ ml.token) :
    (links ++ [ml]).find? (fun x => x.token == ml.token) = some ml := by
  rw [find?_append_none _ _ _ (find?_token_none links ml.token h)]
  exact List.find?_cons_of_pos _ (by simp)

/-- Once the stored document for a token is used, every further
serialized verify call fails with the already-used redirect and leaves
the store as it is. -/
theorem seq_used (now : Nat) (t : String) (n : Nat) (st : Store)
    (mlu : MagicLinkRec) (hT : t ≠ "")
    (hfind : st.magicLinks.find? (fun x => x.token == t) = some mlu)
    (hused : mlu.used = true) :
    seqVerify now t n st = (List.replicate n .alreadyUsed, st) := by
  induction n with
  | zero => rfl
  | succ k ih =>
    simp only [seqVerify,
      verify_used true now "u" t st emptySession mlu hT hfind hused, ih,
      List.replicate_succ]

/-- A verify handler whose findOne returned a valid document advances to
its write phase without touching the store. -/
theorem vstep_start_valid (now : Nat) (t : String) (st : Store)
    (o : Option VerifyOutcome) (ml : MagicLinkRec)
    (hfind : st.magicLinks.find? (fun x => x.token == t) = some ml)
    (hused : ml.used = false) (hexp : ¬ now > ml.expiresAt) :
    vstep now t st { phase := .start, outcome := o } =
      (st, { phase := .ready, outcome := none }) := by
  simp [vstep, hfind, hused, hexp]

/-- The write phase saves the used flag unconditionally and reports
success, whatever the current store holds. -/
theorem vstep_ready (now : Nat) (t : String) (st : Store)
    (o : Option VerifyOutcome) :
    vstep now t st { phase := .ready, outcome := o } =
      ({ st with magicLinks := markUsedFirst st.magicLinks t },
        { phase := .finished, outcome := some (.success "/") }) := rfl

/-- C1: for a valid email and a fresh token, a login request immediately
followed by a verify of the issued token succeeds, and any second verify
of the same token — at any later time, with any session — fails with the
already-used redirect, so the token succeeds exactly once. -/
theorem login_then_verify_single_use (now : Nat) (tok email fid : String)
    (st : Store) (sess : SessionState)
    (hv1 : email ≠ "") (hv2 : jsIncludes email '@' = true) (hT : tok ≠ "")
    (hfresh : ∀ ml ∈ st.magicLinks, ml.token ≠ tok) :
    (loginHandler true now tok email st).1 = .checkEmail (normalizeEmail email) ∧
    ∃ r st2 sess2,
      verifyHandler true now fid (some tok) (loginHandler true now tok email st).2 sess =
        (.success r, st2, sess2) ∧
      ∀ now3 fid3 sess3,
        verifyHandler true now3 fid3 (some tok) st2 sess3 =
          (.alreadyUsed, st2, sess3) := by
  have hs := loginHandler_store true now tok email st hv1 hv2
  constructor
  · unfold loginHandler
    rw [if_neg (by simp [hv1, hv2])]
    rfl
  · have hfind : (loginHandler true now tok email st).2.magicLinks.find?
        (fun x => x.token == tok) = some (mintedLink now tok email) := by
      rw [hs]
      exact find?_fresh_append st.magicLinks (mintedLink now tok email) hfresh
    have hexp : ¬ now > (mintedLink now tok email).expiresAt := by
      show ¬ now > now + 15 * 60 * 1000
      omega
    cases hus : (loginHandler true now tok email st).2.users.find?
        (fun x => x.email == (mintedLink now tok email).email) with
    | some u =>
      refine ⟨_, _, _,
        verify_valid_user_found now fid tok _ sess _ u hT hfind rfl hexp hus,
        fun now3 fid3 sess3 => ?_⟩
      exact verify_used true now3 fid3 tok _ sess3 _ hT
        (markUsedFirst_find? _ _ _ hfind) rfl
    | none =>
      refine ⟨_, _, _,
        verify_valid_user_absent now fid tok _ sess _ hT hfind rfl hexp hus,
        fun now3 fid3 sess3 => ?_⟩
      exact verify_used true now3 fid3 tok _ sess3 _ hT
        (markUsedFirst_find? _ _ _ hfind) rfl

/-- C1 witness at a concrete email, token and empty store. -/
theorem login_then_verify_single_use_witness :
    (loginHandler true 0 "T" "a@b" { magicLinks := [], users := [] }).1 =
      .checkEmail (normalizeEmail "a@b") :=
  (login_then_verify_single_use 0 "T" "a@b" "u" { magicLinks := [], users := [] }
    emptySession (by decide) (by decide) (by decide) (by simp)).1

/-- C2 counterexample: with a single valid stored token, the interleaving
in which both concurrent verify handlers run their findOne before either
runs its save ends with BOTH handlers reporting success — not exactly one
success out of two. -/
theorem concurrent_double_success_cex :
    (runSched 0 "T" [false, true, false, true]
        (⟨[⟨"a@b", "T", 900000, false, 0⟩], []⟩,
          ⟨.start, none⟩, ⟨.start, none⟩)).2.1.outcome =
      some (.success "/") ∧
    (runSched 0 "T" [false, true, false, true]
        (⟨[⟨"a@b", "T", 900000, false, 0⟩], []⟩,
          ⟨.start, none⟩, ⟨.start, none⟩)).2.2.outcome =
      some (.success "/") := by decide

/-- C2 (amended): serialized, the exactly-once property holds — n+1
sequential verify calls on one valid token give one success then n
already-used failures.  But the store-level transition is a separate
findOne followed by a separate unconditional save, not a conditional
write, so under interleaving the guarantee fails: the
read-read-write-write schedule of two concurrent handlers on the same
valid token ends with both reporting success. -/
theorem verify_serialized_once_but_racy (now : Nat) (t : String) (st : Store)
    (ml : MagicLinkRec) (n : Nat) (hT : t ≠ "")
    (hfind : st.magicLinks.find? (fun x => x.token == t) = some ml)
    (hused : ml.used = false) (hexp : ¬ now > ml.expiresAt) :
    (∃ st2, seqVerify now t (n + 1) st =
      (.success "/" :: List.replicate n .alreadyUsed, st2)) ∧
    (runSched now t [false, true, false, true]
        (st, ⟨.start, none⟩, ⟨.start, none⟩)).2.1.outcome =
      some (.success "/") ∧
    (runSched now t [false, true, false, true]
        (st, ⟨.start, none⟩, ⟨.start, none⟩)).2.2.outcome =
      some (.success "/") := by
  refine ⟨?_, ?_, ?_⟩
  · cases hus : st.users.find? (fun x => x.email == ml.email) with
    | some u =>
      have h1 := verify_valid_user_found now "u" t st emptySession ml u hT hfind hused hexp hus
      have h2 := seq_used now t n ⟨markUsedFirst st.magicLinks t, st.users⟩
        { ml with used := true } hT (markUsedFirst_find? _ _ _ hfind) rfl
      exact ⟨_, by simp only [seqVerify, h1, h2]; rfl⟩
    | none =>
      have h1 := verify_valid_user_absent now "u" t st emptySession ml hT hfind hused hexp hus
      have h2 := seq_used now t n
        ⟨markUsedFirst st.magicLinks t,
          st.users ++ [⟨"u", normalizeEmail ml.email, now⟩]⟩
        { ml with used := true } hT (markUsedFirst_find? _ _ _ hfind) rfl
      exact ⟨_, by simp only [seqVerify, h1, h2]; rfl⟩
  · simp [runSched, vstep_start_valid now t st none ml hfind hused hexp, vstep_ready]
  · simp [runSched, vstep_start_valid now t st none ml hfind hused hexp, vstep_ready]

/-- C2 witness: the serialized run on a concrete store. -/
theorem verify_serialized_once_but_racy_witness :
    ∃ st2, seqVerify 0 "T" 3 ⟨[⟨"a@b", "T", 900000, false, 0⟩], []⟩ =
      (.success "/" :: List.replicate 2 .alreadyUsed, st2) :=
  (verify_serialized_once_but_racy 0 "T" ⟨[⟨"a@b", "T", 900000, false, 0⟩], []⟩
    ⟨"a@b", "T", 900000, false, 0⟩ 2 (by decide) (by decide) rfl (by decide)).1

/-- C3 counterexample: the empty input token string matches no stored
document, yet the handler fails with the missing-token redirect and its
own message, not the invalid-token failure the claim prescribes for a
lookup miss. -/
theorem verify_empty_token_cex :
    (List.find? (fun x => x.token == "")
        [(⟨"a@b", "T", 900000, false, 0⟩ : MagicLinkRec)] = none) ∧
    (verifyHandler true 0 "u" (some "")
        ⟨[⟨"a@b", "T", 900000, false, 0⟩], []⟩ emptySession).1 = .missingToken ∧
    VerifyOutcome.missingToken ≠ .invalidToken ∧
    verifyMessage .missingToken ≠ verifyMessage .invalidToken := by decide

/-- C3 (amended): for every present (non-empty) input token string the
verify handler fails with exactly one of three typed failures, checked in
this order — findOne miss: invalid; used flag set: already used; clock
strictly past expiresAt: expired — and otherwise succeeds; the three
failure messages are pairwise distinct.  An absent or empty token is
rejected before lookup with the separate missing-token failure. -/
theorem verify_failure_taxonomy (now : Nat) (fid t : String) (st : Store)
    (sess : SessionState) (hT : t ≠ "") :
    (st.magicLinks.find? (fun x => x.token == t) = none →
      verifyHandler true now fid (some t) st sess = (.invalidToken, st, sess)) ∧
    (∀ ml, st.magicLinks.find? (fun x => x.token == t) = some ml →
      (ml.used = true →
        verifyHandler true now fid (some t) st sess = (.alreadyUsed, st, sess)) ∧
      (ml.used = false → now > ml.expiresAt →
        verifyHandler true now fid (some t) st sess = (.expired, st, sess)) ∧
      (ml.used = false → ¬ now > ml.expiresAt →
        ∃ r st2 sess2,
          verifyHandler true now fid (some t) st sess = (.success r, st2, sess2))) ∧
    (verifyMessage .invalidToken ≠ verifyMessage .alreadyUsed ∧
      verifyMessage .invalidToken ≠ verifyMessage .expired ∧
      verifyMessage .alreadyUsed ≠ verifyMessage .expired) := by
  refine ⟨fun hf => verify_notfound true now fid t st sess hT hf,
    fun ml hfind => ⟨fun hu => verify_used true now fid t st sess ml hT hfind hu,
      fun hu he => verify_expired true now fid t st sess ml hT hfind hu he,
      fun hu he => ?_⟩, by decide⟩
  cases hus : st.users.find? (fun x => x.email == ml.email) with
  | some u =>
    exact ⟨_, _, _, verify_valid_user_found now fid t st sess ml u hT hfind hu he hus⟩
  | none =>
    exact ⟨_, _, _, verify_valid_user_absent now fid t st sess ml hT hfind hu he hus⟩

/-- C3 witness: the already-used branch on a concrete store. -/
theorem verify_failure_taxonomy_witness :
    verifyHandler true 0 "u" (some "T")
        ⟨[⟨"a@b", "T", 900000, true, 0⟩], []⟩ emptySession =
      (.alreadyUsed, ⟨[⟨"a@b", "T", 900000, true, 0⟩], []⟩, emptySession) :=
  ((verify_failure_taxonomy 0 "u" "T" ⟨[⟨"a@b", "T", 900000, true, 0⟩], []⟩
      emptySession (by decide)).2.1 ⟨"a@b", "T", 900000, true, 0⟩ (by decide)).1 rfl

/-- C4 counterexample: a successful verify with a guest chat id on the
session leaves that guest id in place on the resulting session — it is
not cleared, merely shadowed by the freshly set userId. -/
theorem verify_guest_not_cleared_cex :
    (verifyHandler true 0 "u1" (some "T")
        ⟨[⟨"a@b", "T", 900000, false, 0⟩], []⟩
        ⟨none, none, some "guest_7_x", none⟩).1 = .success "/" ∧
    (verifyHandler true 0 "u1" (some "T")
        ⟨[⟨"a@b", "T", 900000, false, 0⟩], []⟩
        ⟨none, none, some "guest_7_x", none⟩).2.2.userId = some "u1" ∧
    (verifyHandler true 0 "u1" (some "T")
        ⟨[⟨"a@b", "T", 900000, false, 0⟩], []⟩
        ⟨none, none, some "guest_7_x", none⟩).2.2.guestChatId =
      some "guest_7_x" := by decide

/-- C4 (amended): on a successful verify the account for the token's
email is looked up and created if absent, the session's userId is set to
that account's id, the redirect target is the stored pending return path
(which is cleared) or the home path; the guest chat id is NOT removed
from the session, but it is superseded — getChatUserId thereafter
resolves to the account id. -/
theorem verify_success_session (now : Nat) (fid t nowStr rand : String)
    (st : Store) (sess : SessionState) (ml : MagicLinkRec) (hT : t ≠ "")
    (hfind : st.magicLinks.find? (fun x => x.token == t) = some ml)
    (hused : ml.used = false) (hexp : ¬ now > ml.expiresAt) :
    ∃ u : UserRec,
      (st.users.find? (fun x => x.email == ml.email) = some u ∧
          (verifyHandler true now fid (some t) st sess).2.1.users = st.users ∨
        st.users.find? (fun x => x.email == ml.email) = none ∧
          u = { id := fid
                email := normalizeEmail ml.email
                createdAt := now } ∧
          (verifyHandler true now fid (some t) st sess).2.1.users = st.users ++ [u]) ∧
      (verifyHandler true now fid (some t) st sess).1 =
        .success (sess.returnTo.getD "/") ∧
      (verifyHandler true now fid (some t) st sess).2.2.userId = some u.id ∧
      (verifyHandler true now fid (some t) st sess).2.2.returnTo = none ∧
      (verifyHandler true now fid (some t) st sess).2.2.guestChatId =
        sess.guestChatId ∧
      (getChatUserId nowStr rand (verifyHandler true now fid (some t) st sess).2.2).1 =
        u.id := by
  cases hus : st.users.find? (fun x => x.email == ml.email) with
  | some u =>
    have h := verify_valid_user_found now fid t st sess ml u hT hfind hused hexp hus
    refine ⟨u, Or.inl ⟨rfl, ?_⟩, ?_, ?_, ?_, ?_, ?_⟩ <;>
      (rw [h]; try simp [getChatUserId])
  | none =>
    have h := verify_valid_user_absent now fid t st sess ml hT hfind hused hexp hus
    refine ⟨_, Or.inr ⟨rfl, rfl, ?_⟩, ?_, ?_, ?_, ?_, ?_⟩ <;>
      (rw [h]; try simp [getChatUserId])

/-- C4 witness: a concrete verify with a pending return path redirects
there. -/
theorem verify_success_session_witness :
    (verifyHandler true 0 "u1" (some "T")
        ⟨[⟨"a@b", "T", 900000, false, 0⟩], []⟩
        ⟨none, none, some "g", some "/cart"⟩).1 = .success "/cart" := by
  obtain ⟨u, _, h, _⟩ := verify_success_session 0 "u1" "T" "9" "r"
    ⟨[⟨"a@b", "T", 900000, false, 0⟩], []⟩ ⟨none, none, some "g", some "/cart"⟩
    ⟨"a@b", "T", 900000, false, 0⟩ (by decide) (by decide) rfl (by decide)
  simpa using h

/-- C5: a valid login request inserts a token with used = false and
expiresAt = creation time + 15 minutes, and a verify strictly after that
window fails with the expired redirect even though the token was never
used. -/
theorem token_expiry_window (mailOk : Bool) (now now2 : Nat)
    (tok email fid : String) (st : Store) (sess : SessionState)
    (hv1 : email ≠ "") (hv2 : jsIncludes email '@' = true) (hT : tok ≠ "")
    (hfresh : ∀ ml ∈ st.magicLinks, ml.token ≠ tok)
    (hlate : now2 > now + 15 * 60 * 1000) :
    (loginHandler mailOk now tok email st).2.magicLinks =
      st.magicLinks ++ [mintedLink now tok email] ∧
    (mintedLink now tok email).used = false ∧
    (mintedLink now tok email).expiresAt = now + 15 * 60 * 1000 ∧
    verifyHandler true now2 fid (some tok) (loginHandler mailOk now tok email st).2 sess =
      (.expired, (loginHandler mailOk now tok email st).2, sess) := by
  have hs := loginHandler_store mailOk now tok email st hv1 hv2
  refine ⟨by rw [hs], rfl, rfl, ?_⟩
  have hfind : (loginHandler mailOk now tok email st).2.magicLinks.find?
      (fun x => x.token == tok) = some (mintedLink now tok email) := by
    rw [hs]
    exact find?_fresh_append st.magicLinks (mintedLink now tok email) hfresh
  exact verify_expired true now2 fid tok _ sess _ hT hfind rfl hlate

/-- C5 witness: verifying one millisecond past the window expires. -/
theorem token_expiry_window_witness :
    verifyHandler true 900001 "u" (some "T")
        (loginHandler true 0 "T" "a@b" { magicLinks := [], users := [] }).2
        emptySession =
      (.expired, (loginHandler true 0 "T" "a@b" { magicLinks := [], users := [] }).2,
        emptySession) :=
  (token_expiry_window true 0 900001 "T" "a@b" "u"
    { magicLinks := [], users := [] } emptySession
    (by decide) (by decide) (by decide) (by simp) (by decide)).2.2.2

/-- C6: normalization is trimming plus lowercasing; creating the account
from "  USER@Example.COM " stores "user@example.com", and a second
login/verify round with "User@EXAMPLE.com" resolves to that same account
with no duplicate created. -/
theorem email_normalization_roundtrip :
    normalizeEmail "  USER@Example.COM " = "user@example.com" ∧
    normalizeEmail "User@EXAMPLE.com" = "user@example.com" ∧
    (verifyHandler true 1000 "uid1" (some "T1")
        (loginHandler true 1000 "T1" "  USER@Example.COM "
          ⟨[], []⟩).2 emptySession).2.1.users =
      [⟨"uid1", "user@example.com", 1000⟩] ∧
    (verifyHandler true 2000 "uid2" (some "T2")
        (loginHandler true 2000 "T2" "User@EXAMPLE.com"
          (verifyHandler true 1000 "uid1" (some "T1")
            (loginHandler true 1000 "T1" "  USER@Example.COM "
              ⟨[], []⟩).2 emptySession).2.1).2 emptySession).1 = .success "/" ∧
    (verifyHandler true 2000 "uid2" (some "T2")
        (loginHandler true 2000 "T2" "User@EXAMPLE.com"
          (verifyHandler true 1000 "uid1" (some "T1")
            (loginHandler true 1000 "T1" "  USER@Example.COM "
              ⟨[], []⟩).2 emptySession).2.1).2 emptySession).2.1.users =
      [⟨"uid1", "user@example.com", 1000⟩] ∧
    (verifyHandler true 2000 "uid2" (some "T2")
        (loginHandler true 2000 "T2" "User@EXAMPLE.com"
          (verifyHandler true 1000 "uid1" (some "T1")
            (loginHandler true 1000 "T1" "  USER@Example.COM "
              ⟨[], []⟩).2 emptySession).2.1).2 emptySession).2.2.userId =
      some "uid1" := by decide

/-- C7: a login request only appends one new MagicLink document — every
pre-existing document survives unchanged, the User collection is
untouched, and any older token verifiable before the request is still
verifiable after it. -/
theorem requestLogin_frame (mailOk : Bool) (now now2 : Nat)
    (tok email fid : String) (st : Store) (sess : SessionState)
    (hv1 : email ≠ "") (hv2 : jsIncludes email '@' = true) :
    (loginHandler mailOk now tok email st).2.magicLinks =
      st.magicLinks ++ [mintedLink now tok email] ∧
    (∀ ml ∈ st.magicLinks, ml ∈ (loginHandler mailOk now tok email st).2.magicLinks) ∧
    (loginHandler mailOk now tok email st).2.users = st.users ∧
    (∀ t2, t2 ≠ "" → ∀ ml,
      st.magicLinks.find? (fun x => x.token == t2) = some ml →
      ml.used = false → ¬ now2 > ml.expiresAt →
      ∃ r st2 sess2,
        verifyHandler true now2 fid (some t2) (loginHandler mailOk now tok email st).2 sess =
          (.success r, st2, sess2)) := by
  have hs := loginHandler_store mailOk now tok email st hv1 hv2
  refine ⟨by rw [hs], ?_, by rw [hs], ?_⟩
  · intro ml hm
    rw [hs]
    exact List.mem_append_left _ hm
  · intro t2 ht2 ml hf hu he
    have hfind2 : (loginHandler mailOk now tok email st).2.magicLinks.find?
        (fun x => x.token == t2) = some ml := by
      rw [hs]; exact find?_append_left _ _ _ _ hf
    cases hus : (loginHandler mailOk now tok email st).2.users.find?
        (fun x => x.email == ml.email) with
    | some u =>
      exact ⟨_, _, _, verify_valid_user_found now2 fid t2 _ sess ml u ht2 hfind2 hu he hus⟩
    | none =>
      exact ⟨_, _, _, verify_valid_user_absent now2 fid t2 _ sess ml ht2 hfind2 hu he hus⟩

/-- C7 witness: an older token still verifies after a new request for the
same email. -/
theorem requestLogin_frame_witness :
    ∃ r st2 sess2,
      verifyHandler true 5 "u" (some "OLD")
          (loginHandler true 10 "NEW" "a@b"
            ⟨[⟨"a@b", "OLD", 900000, false, 0⟩], []⟩).2 emptySession =
        (.success r, st2, sess2) :=
  (requestLogin_frame true 10 5 "NEW" "a@b" "u"
    ⟨[⟨"a@b", "OLD", 900000, false, 0⟩], []⟩ emptySession
    (by decide) (by decide)).2.2.2 "OLD" (by decide)
    ⟨"a@b", "OLD", 900000, false, 0⟩ (by decide) rfl (by decide)

/-- C8: when the mailer reports non-success the login request fails to
the caller with the mail-failure redirect, yet the MagicLink document it
already inserted stays stored, unused, with its full 15-minute expiry —
it is not rolled back. -/
theorem mailer_failure_keeps_token (now : Nat) (tok email : String) (st : Store)
    (hv1 : email ≠ "") (hv2 : jsIncludes email '@' = true) :
    (loginHandler false now tok email st).1 = .mailFailed ∧
    (loginHandler false now tok email st).2.magicLinks =
      st.magicLinks ++ [mintedLink now tok email] ∧
    (mintedLink now tok email).used = false ∧
    (mintedLink now tok email).token = tok ∧
    (mintedLink now tok email).expiresAt = now + 15 * 60 * 1000 := by
  refine ⟨?_, by rw [loginHandler_store false now tok email st hv1 hv2], rfl, rfl, rfl⟩
  unfold loginHandler
  rw [if_neg (by simp [hv1, hv2])]
  rfl

/-- C8 witness at a concrete email and empty store. -/
theorem mailer_failure_keeps_token_witness :
    (loginHandler false 0 "T" "a@b" { magicLinks := [], users := [] }).1 =
      .mailFailed :=
  (mailer_failure_keeps_token 0 "T" "a@b" { magicLinks := [], users := [] }
    (by decide) (by decide)).1

/-- C9: getChatUserId returns the account id whenever the session is
authenticated; otherwise the first call persists a guest id on the
session and every later call (with no login in between) returns that
identical guest id without changing the session. -/
theorem resolveActorId_sessions (sess : SessionState) :
    (∀ uid, sess.userId = some uid →
      ∀ nowStr rand, getChatUserId nowStr rand sess = (uid, sess)) ∧
    (sess.userId = none → ∀ nowStr rand,
      (getChatUserId nowStr rand sess).2.guestChatId =
        some (getChatUserId nowStr rand sess).1 ∧
      ∀ nowStr2 rand2,
        getChatUserId nowStr2 rand2 (getChatUserId nowStr rand sess).2 =
          ((getChatUserId nowStr rand sess).1,
            (getChatUserId nowStr rand sess).2)) := by
  constructor
  · intro uid h nowStr rand
    simp [getChatUserId, h]
  · intro h nowStr rand
    cases hg : sess.guestChatId with
    | some g =>
      exact ⟨by simp [getChatUserId, h, hg],
        fun n2 r2 => by simp [getChatUserId, h, hg]⟩
    | none =>
      exact ⟨by simp [getChatUserId, h, hg],
        fun n2 r2 => by simp [getChatUserId, h, hg]⟩

/-- C9 witness: two guest calls on a fresh session agree. -/
theorem resolveActorId_sessions_witness :
    getChatUserId "2" "b" (getChatUserId "1" "a" emptySession).2 =
      ((getChatUserId "1" "a" emptySession).1,
        (getChatUserId "1" "a" emptySession).2) :=
  ((resolveActorId_sessions emptySession).2 rfl "1" "a").2 "2" "b"

/-- C10: consumption is not atomic with session establishment — if the
User store fails right after the used flag was saved, the caller gets
the generic error, no session is set and no account is created, yet the
token stays consumed, so every later verify of it fails already-used. -/
theorem verify_non_atomic_consumption (now : Nat) (fid t : String) (st : Store)
    (sess : SessionState) (ml : MagicLinkRec) (hT : t ≠ "")
    (hfind : st.magicLinks.find? (fun x => x.token == t) = some ml)
    (hused : ml.used = false) (hexp : ¬ now > ml.expiresAt) :
    (verifyHandler false now fid (some t) st sess).1 = .storeError ∧
    (verifyHandler false now fid (some t) st sess).2.2 = sess ∧
    (verifyHandler false now fid (some t) st sess).2.1.users = st.users ∧
    (verifyHandler false now fid (some t) st sess).2.1.magicLinks.find?
        (fun x => x.token == t) = some { ml with used := true } ∧
    ∀ now2 fid2 sess2,
      verifyHandler true now2 fid2 (some t)
          (verifyHandler false now fid (some t) st sess).2.1 sess2 =
        (.alreadyUsed, (verifyHandler false now fid (some t) st sess).2.1, sess2) := by
  have h := verify_usersFail now fid t st sess ml hT hfind hused hexp
  rw [h]
  exact ⟨rfl, rfl, rfl, markUsedFirst_find? _ _ _ hfind,
    fun now2 fid2 sess2 => verify_used true now2 fid2 t _ sess2 _ hT
      (markUsedFirst_find? _ _ _ hfind) rfl⟩

/-- C10 witness on a concrete store. -/
theorem verify_non_atomic_consumption_witness :
    (verifyHandler false 0 "u" (some "T")
        ⟨[⟨"a@b", "T", 900000, false, 0⟩], []⟩ emptySession).1 = .storeError :=
  (verify_non_atomic_consumption 0 "u" "T"
    ⟨[⟨"a@b", "T", 900000, false, 0⟩], []⟩ emptySession
    ⟨"a@b", "T", 900000, false, 0⟩ (by decide) (by decide) rfl (by decide)).1
